import Mathlib

/-!
Shallow embedding of `src/backend/app.py`, a Flask application that registers a
single route `/` returning a constant greeting string, and of the Flask/Werkzeug
request-dispatch semantics that apply to its route table:

* `@app.route("/")` with no `methods` argument registers the rule for `GET`, and
  Flask automatically adds `HEAD` and `OPTIONS` to every rule.
* a request whose path matches no rule receives the framework's 404 response;
* a request whose path matches a rule but whose method is not allowed receives 405;
* `OPTIONS` on a matched rule is answered automatically with 200 and an empty body;
* `HEAD` on a matched rule runs the `GET` view and discards the body;
* a view function returning a `str` is wrapped into a 200 response with Flask's
  default mimetype `text/html; charset=utf-8`;
* an exception escaping a view becomes a 500 response.
-/

/-- welcome is the literal string returned by the `home` view function in `app.py`. -/
def welcome : String := "Welcome to the Cleaner Matching System!"

/-- Request models an inbound HTTP request as seen by the WSGI layer: method, path,
query string, headers and body. -/
structure Request where
  method : String
  path : String
  query : String
  headers : List (String × String)
  reqBody : String
deriving Repr, DecidableEq

/-- Response models an HTTP response: status code, body and content type. -/
structure Response where
  status : Nat
  respBody : String
  contentType : String
deriving Repr, DecidableEq

/-- home is the view function registered on `/` in `app.py`.  Its Python body is a
single `return` of a string literal; fallible view code is embedded as `Except`,
and this view always succeeds with the greeting. -/
def home : Request → Except String String := fun _ => Except.ok welcome

/-- Route pairs a URL rule with its allowed methods and its view function, as an
entry of the application's URL map. -/
structure Route where
  rule : String
  methods : List String
  handler : Request → Except String String

/-- FlaskApp models the application object `app = Flask(__name__)`: its registered
routes. -/
structure FlaskApp where
  routes : List Route

/-- app is the application built in `app.py`: one rule `/` mapped to `home`.  The
decorator `@app.route("/")` has no `methods` argument, so the rule allows `GET`
and Flask adds `HEAD` and `OPTIONS` automatically. -/
def app : FlaskApp := ⟨[⟨"/", ["GET", "HEAD", "OPTIONS"], home⟩]⟩

/-- flaskDefaultMimetype is Flask's default content type for a view returning a
plain string. -/
def flaskDefaultMimetype : String := "text/html; charset=utf-8"

/-- notFoundBody is Werkzeug's default 404 page. -/
def notFoundBody : String :=
  "<!doctype html>\n<html lang=en>\n<title>404 Not Found</title>\n<h1>Not Found</h1>\n<p>The requested URL was not found on the server. If you entered the URL manually please check your spelling and try again.</p>\n"

/-- methodNotAllowedBody is Werkzeug's default 405 page. -/
def methodNotAllowedBody : String :=
  "<!doctype html>\n<html lang=en>\n<title>405 Method Not Allowed</title>\n<h1>Method Not Allowed</h1>\n<p>The method is not allowed for the requested URL.</p>\n"

/-- internalErrorBody is Werkzeug's default 500 page. -/
def internalErrorBody : String :=
  "<!doctype html>\n<html lang=en>\n<title>500 Internal Server Error</title>\n<h1>Internal Server Error</h1>\n<p>The server encountered an internal error and was unable to complete your request.</p>\n"

/-- findRoute models URL-map matching: the first rule whose string equals the
request path. -/
def findRoute (routes : List Route) (path : String) : Option Route :=
  routes.find? (fun rt => rt.rule == path)

/-- handleRequest models Flask's dispatch of one request against an application's
URL map, following the framework semantics listed at the top of this file. -/
def handleRequest (a : FlaskApp) (r : Request) : Response :=
  match findRoute a.routes r.path with
  | none => ⟨404, notFoundBody, flaskDefaultMimetype⟩
  | some rt =>
    if r.method = "OPTIONS" then ⟨200, "", flaskDefaultMimetype⟩
    else if rt.methods.contains r.method then
      match rt.handler r with
      | Except.ok s =>
        if r.method = "HEAD" then ⟨200, "", flaskDefaultMimetype⟩
        else ⟨200, s, flaskDefaultMimetype⟩
      | Except.error _ => ⟨500, internalErrorBody, flaskDefaultMimetype⟩
    else ⟨405, methodNotAllowedBody, flaskDefaultMimetype⟩

/-- handleRequestSt threads the application state through the handling of one
request; the Python handler assigns nothing and calls nothing effectful, so the
state passes through unchanged. -/
def handleRequestSt (a : FlaskApp) (r : Request) : FlaskApp × Response :=
  (a, handleRequest a r)

/-- serveTimes serves the same request `n` times in sequence, threading the
application state and collecting the responses in order. -/
def serveTimes (a : FlaskApp) (r : Request) : Nat → FlaskApp × List Response
  | 0 => (a, [])
  | n + 1 =>
    let p := serveTimes a r n
    let q := handleRequestSt p.1 r
    (q.1, p.2 ++ [q.2])

/-- RunCall records the arguments of the `app.run` call in `app.py`: only the
debug flag is passed. -/
structure RunCall where
  debug : Bool
deriving Repr, DecidableEq

/-- moduleMain models the `if __name__ == "__main__"` guard at the bottom of
`app.py`: executed as the main program it calls `app.run(debug=True)`, otherwise
no run call happens. -/
def moduleMain (name : String) : Option RunCall :=
  if name = "__main__" then some ⟨true⟩ else none

/-- handleRequest on this application depends only on the request's method and
path, and takes the value given by this case analysis. -/
theorem handleRequest_app (r : Request) :
    handleRequest app r =
      if r.path = "/" then
        if r.method = "OPTIONS" then ⟨200, "", flaskDefaultMimetype⟩
        else if r.method = "GET" then ⟨200, welcome, flaskDefaultMimetype⟩
        else if r.method = "HEAD" then ⟨200, "", flaskDefaultMimetype⟩
        else ⟨405, methodNotAllowedBody, flaskDefaultMimetype⟩
      else ⟨404, notFoundBody, flaskDefaultMimetype⟩ := by
  obtain ⟨m, p, q, hs, b⟩ := r
  by_cases hp : p = "/"
  · subst hp
    by_cases ho : m = "OPTIONS"
    · subst ho; rfl
    · by_cases hg : m = "GET"
      · subst hg; rfl
      · by_cases hh : m = "HEAD"
        · subst hh; rfl
        · simp [handleRequest, findRoute, app, home, List.contains, ho, hg, hh]
  · simp [handleRequest, findRoute, app, hp, Ne.symm hp]

/-- C1: every HTTP request with method GET and path `/` receives status 200 and a
body equal, byte for byte, to the greeting string. -/
theorem c1_get_root_ok (r : Request) (hm : r.method = "GET") (hp : r.path = "/") :
    (handleRequest app r).status = 200 ∧ (handleRequest app r).respBody = welcome := by
  rw [handleRequest_app, hp, hm]
  exact ⟨rfl, rfl⟩

/-- C1 witness: a concrete GET request to `/`. -/
theorem c1_get_root_ok_witness :
    (handleRequest app ⟨"GET", "/", "", [], ""⟩).status = 200 ∧
      (handleRequest app ⟨"GET", "/", "", [], ""⟩).respBody = welcome :=
  c1_get_root_ok ⟨"GET", "/", "", [], ""⟩ rfl rfl

/-- C2: every HTTP request whose path is anything other than `/` receives status
404, the framework's routing fallback, since `/` is the only registered route. -/
theorem c2_other_path_404 (r : Request) (hp : r.path ≠ "/") :
    (handleRequest app r).status = 404 := by
  rw [handleRequest_app, if_neg hp]

/-- C2 witness: a concrete GET request to `/missing`. -/
theorem c2_other_path_404_witness :
    (handleRequest app ⟨"GET", "/missing", "", [], ""⟩).status = 404 :=
  c2_other_path_404 ⟨"GET", "/missing", "", [], ""⟩ (by decide)

/-- C3 counterexample: the claim that every request to `/` with a method other
than GET gets status 405 or 404 is false: a HEAD request to `/` gets status 200,
because Flask adds HEAD to every route automatically. -/
theorem c3_counterexample :
    ¬ (∀ r : Request, r.path = "/" → r.method ≠ "GET" →
        (handleRequest app r).status = 405 ∨ (handleRequest app r).status = 404) := by
  intro h
  have hc := h ⟨"HEAD", "/", "", [], ""⟩ rfl (by decide)
  rcases hc with hc | hc <;> exact absurd hc (by decide)

/-- C3 amended: every HTTP request with path `/` and a method other than GET,
HEAD and OPTIONS receives status 405, Flask's convention for a matched rule
whose method is not allowed. -/
theorem c3_amended_405 (r : Request) (hp : r.path = "/") (hg : r.method ≠ "GET")
    (hh : r.method ≠ "HEAD") (ho : r.method ≠ "OPTIONS") :
    (handleRequest app r).status = 405 := by
  rw [handleRequest_app, if_pos hp, if_neg ho, if_neg hg, if_neg hh]

/-- C3 witness: a concrete POST request to `/`. -/
theorem c3_amended_405_witness :
    (handleRequest app ⟨"POST", "/", "", [], ""⟩).status = 405 :=
  c3_amended_405 ⟨"POST", "/", "", [], ""⟩ rfl (by decide) (by decide) (by decide)

/-- C4: the response to GET `/` carries content type text/plain or the
framework's default content type for a string return; Flask's default applies. -/
theorem c4_content_type (r : Request) (hm : r.method = "GET") (hp : r.path = "/") :
    (handleRequest app r).contentType = "text/plain" ∨
      (handleRequest app r).contentType = flaskDefaultMimetype := by
  rw [handleRequest_app, hp, hm]
  exact Or.inr rfl

/-- C4 witness: a concrete GET request to `/`. -/
theorem c4_content_type_witness :
    (handleRequest app ⟨"GET", "/", "", [], ""⟩).contentType = "text/plain" ∨
      (handleRequest app ⟨"GET", "/", "", [], ""⟩).contentType = flaskDefaultMimetype :=
  c4_content_type ⟨"GET", "/", "", [], ""⟩ rfl rfl

/-- serveTimes leaves the application state unchanged after any number of
requests. -/
theorem serveTimes_state (a : FlaskApp) (r : Request) (n : Nat) :
    (serveTimes a r n).1 = a := by
  induction n with
  | zero => rfl
  | succ k ih => simp [serveTimes, handleRequestSt, ih]

/-- C5: serving the same request N times yields the identical response every
time: the list of responses is N copies of the response to the first request. -/
theorem c5_idempotent (r : Request) (n : Nat) :
    (serveTimes app r n).2 = List.replicate n (handleRequest app r) := by
  induction n with
  | zero => rfl
  | succ k ih =>
    simp [serveTimes, handleRequestSt, ih, serveTimes_state app r k,
      List.replicate_succ']

/-- C6: two requests that agree on method and path receive identical responses
from this application: query string, headers and body do not affect the output. -/
theorem c6_noninterference (r1 r2 : Request) (hm : r1.method = r2.method)
    (hp : r1.path = r2.path) :
    handleRequest app r1 = handleRequest app r2 := by
  rw [handleRequest_app, handleRequest_app, hm, hp]

/-- C6 witness: two concrete GET requests to `/` differing in query string,
headers and body. -/
theorem c6_noninterference_witness :
    handleRequest app ⟨"GET", "/", "a=1", [("X-Key", "secret")], "payload"⟩ =
      handleRequest app ⟨"GET", "/", "", [], ""⟩ :=
  c6_noninterference ⟨"GET", "/", "a=1", [("X-Key", "secret")], "payload"⟩
    ⟨"GET", "/", "", [], ""⟩ rfl rfl

/-- C7: handling any request leaves the application state unchanged: the state
component returned by the stateful handler equals the state passed in. -/
theorem c7_frame (a : FlaskApp) (r : Request) : (handleRequestSt a r).1 = a := rfl

/-- C8: the `home` handler completes normally on every request, and dispatch of
any request through this application never reaches the 500 error branch. -/
theorem c8_no_handler_error (r : Request) :
    home r = Except.ok welcome ∧ (handleRequest app r).status ≠ 500 := by
  refine ⟨rfl, ?_⟩
  rw [handleRequest_app]
  split_ifs <;> decide

/-- C9: the run call in `app.py` passes the hard-coded debug flag true, and it
happens only when the module is executed as the main program. -/
theorem c9_debug_flag :
    moduleMain "__main__" = some ⟨true⟩ ∧
      ∀ name : String, name ≠ "__main__" → moduleMain name = none := by
  constructor
  · rfl
  · intro name hn
    simp [moduleMain, hn]

/-- C9 witness: the guard fires for `__main__` and not for an imported module
name. -/
theorem c9_debug_flag_witness :
    moduleMain "__main__" = some ⟨true⟩ ∧ moduleMain "backend.app" = none :=
  ⟨c9_debug_flag.1, c9_debug_flag.2 "backend.app" (by decide)⟩

/-- C10: on the route `/`, registered without an explicit method list, a HEAD
request is answered with status 200 and an empty body, and an OPTIONS request is
answered with status 200, instead of 405 or 404. -/
theorem c10_head_options (r : Request) (hp : r.path = "/") :
    (r.method = "HEAD" →
      (handleRequest app r).status = 200 ∧ (handleRequest app r).respBody = "") ∧
    (r.method = "OPTIONS" → (handleRequest app r).status = 200) := by
  constructor
  · intro hh
    rw [handleRequest_app, hp, hh]
    exact ⟨rfl, rfl⟩
  · intro ho
    rw [handleRequest_app, hp, ho]
    rfl

/-- C10 witness: concrete HEAD and OPTIONS requests to `/`. -/
theorem c10_head_options_witness :
    ((handleRequest app ⟨"HEAD", "/", "", [], ""⟩).status = 200 ∧
      (handleRequest app ⟨"HEAD", "/", "", [], ""⟩).respBody = "") ∧
    (handleRequest app ⟨"OPTIONS", "/", "", [], ""⟩).status = 200 :=
  ⟨(c10_head_options ⟨"HEAD", "/", "", [], ""⟩ rfl).1 rfl,
    (c10_head_options ⟨"OPTIONS", "/", "", [], ""⟩ rfl).2 rfl⟩
